import Mathlib

/-
Verification of the errorwrapper library (Go) against its specification.

The repository has three near-duplicate variants of the same design:
  * src/v1/errorwrapper_v1.go      (namespace V1 below)
  * src/unnamed/part_000           (namespace P0 below)
  * src/unnamed/part_001           (namespace P1 below, the recursive-merge variant)

Shallow embedding: a Go `error` interface value — which may be nil, a leaf
`*errorString` (or foreign leaf error), or a composite `*errWrapper` — is
modelled by the inductive type `Err` with constructors `nil`, `raw`,
`wrapped`.  The struct `errWrapper` doubles in Go as the factory object
returned by `New`, modelled here by the structure `EW` with the same four
fields.  Go bytes are modelled as `Nat` (all joiners in play are ASCII);
`strings.Builder` sequences of WriteString/WriteByte are modelled by `++` on
`String`.
-/

namespace ErrorWrapper

/-- An error interface value: `nil` is Go's nil error; `raw s` models
`*errorString` (and any foreign leaf error whose `Error()` returns `s`);
`wrapped pfx msg joiner inner` models a `*errWrapper` with fields `prefix`,
`msg`, `errJoiner`, `err`. -/
inductive Err where
  | nil : Err
  | raw (s : String) : Err
  | wrapped (pfx msg : String) (joiner : Nat) (inner : Err) : Err
deriving DecidableEq, Repr

/-- The `errWrapper` struct used as receiver (the factory object):
fields `err`, `msg`, `prefix` (here `pfx`), `errJoiner` of the Go struct. -/
structure EW where
  err : Err
  msg : String
  pfx : String
  errJoiner : Nat
deriving DecidableEq, Repr

/-- `defaultErrJoiner byte = 0x2E`, i.e. the character '.'. -/
def defaultErrJoiner : Nat := 0x2E

/-- `defaultMsgJoiner string = ": "`. -/
def defaultMsgJoiner : String := ": "

/-- `sb.WriteByte b` contributes the one-character string of byte `b`. -/
def sepStr (b : Nat) : String := String.singleton (Char.ofNat b)

/-- `New(errJoiner byte, prefix ...string) ErrorWrapper` — identical in all
three variants: zero joiner is replaced by the default, the first optional
argument (if any) becomes the prefix. -/
def New (errJoiner : Nat) (prefixArgs : List String) : EW :=
  { err := .nil
    msg := ""
    pfx := match prefixArgs with
           | [] => ""
           | p :: _ => p
    errJoiner := if errJoiner == 0 then defaultErrJoiner else errJoiner }

/-- `func (ew errWrapper) Error() string` — identical in all three variants.
Emits the prefix followed by `": "` when the prefix is non-empty, then
`[msg]` when the msg is non-empty (bytes 0x5B/0x5D), then, when the inner
error is non-nil, a space (byte 0x20) if a msg was emitted followed by the
inner error's own `Error()` string.  (Go never invokes `Error()` on a nil
error; the `nil` case below is an unused default.) -/
def Err.render : Err → String
  | .nil => ""
  | .raw s => s
  | .wrapped p m _ inner =>
      (if p ≠ "" then p ++ defaultMsgJoiner else "")
      ++ (if m ≠ "" then "[" ++ m ++ "]" else "")
      ++ (match inner with
          | .nil => ""
          | i => (if m ≠ "" then " " else "") ++ Err.render i)

/-- `func (ew *errWrapper) Unwrap() error { return ew.err }` — identical in
all three variants.  On a value without an `Unwrap` method (a `raw` leaf, or
nil), `errors.Unwrap` yields nil. -/
def Err.unwrap : Err → Err
  | .wrapped _ _ _ inner => inner
  | _ => .nil

namespace P1

/-- `unwrapRecursively(err error, joiner byte) (string, error)` of part_001:
walks nested `*errWrapper` values, accumulating `ew.prefix`, a joiner byte
when both the current prefix and the recursively accumulated one are
non-empty, and the recursive result; a non-wrapper (or nil) terminal is
returned unchanged with prefix "". -/
def unwrapRecursively : Err → Nat → String × Err
  | .wrapped p _ _ inner, joiner =>
      let res := unwrapRecursively inner joiner
      (p ++ (if p ≠ "" ∧ res.1 ≠ "" then sepStr joiner else "") ++ res.1, res.2)
  | e, _ => ("", e)

/-- `func (ew errWrapper) NewError(err error, msg ...string) error` of
part_001: nil in, nil out; otherwise flatten via `unwrapRecursively` with
this wrapper's joiner, join `ew.prefix` to the flattened prefix (joiner byte
only when both sides non-empty), keep the terminal as `err`, the first
optional argument as `msg`, and `ew.errJoiner` as the joiner. -/
def NewError (ew : EW) (err : Err) (msg : List String) : Err :=
  match err with
  | .nil => .nil
  | e =>
      let tmpMsg := match msg with
                    | [] => ""
                    | m :: _ => m
      let unw := unwrapRecursively e ew.errJoiner
      .wrapped
        (ew.pfx ++ (if ew.pfx ≠ "" ∧ unw.1 ≠ "" then sepStr ew.errJoiner else "") ++ unw.1)
        tmpMsg ew.errJoiner unw.2

/-- `func (ew errWrapper) NewErrorString(errStr string, msg ...string) error`
of part_001: empty string in, nil out; otherwise a fresh wrapper over
`&errorString{errStr}` with this wrapper's prefix.  Note the Go struct
literal omits the `errJoiner` field, which is therefore the zero byte. -/
def NewErrorString (ew : EW) (errStr : String) (msg : List String) : Err :=
  if errStr = "" then .nil
  else
    .wrapped ew.pfx
      (match msg with
       | [] => ""
       | m :: _ => m)
      0 (.raw errStr)

end P1

/-- `errors.As(err, &errWrapper{})` as used by v1 and part_000: searches `err`
and its unwrap chain for an `errWrapper` node.  A `raw` leaf has no `Unwrap`
method, so the search stops immediately at it; a `wrapped` node matches at
once.  The search therefore reduces to: is the top value a wrapper?  (In the
actual Go runtime this call compares against the value type `errWrapper`
while produced errors have dynamic type `*errWrapper`; no claim below
depends on the distinction because every claim touching these variants
restricts the argument to non-wrapper errors, where both readings give
`false`.) -/
def errorsAsWrapped : Err → Bool
  | .wrapped .. => true
  | _ => false

namespace P0

/-- `func (ew errWrapper) NewError(err error, msg ...string) error` of
part_000: when the argument is an `errWrapper` with a non-empty prefix, one
level of merging happens (inner prefix kept as-is when `ew.prefix` is empty,
otherwise `ew.prefix + ew.errJoiner + inner prefix`), the inner node's `err`
is adopted and its msg dropped; in every other case the argument (nil
included) is wrapped as-is under `ew.prefix`.  Every struct literal omits
`errJoiner`, which is therefore the zero byte. -/
def NewError (ew : EW) (err : Err) (msg : List String) : Err :=
  let tmpMsg := match msg with
                | [] => ""
                | m :: _ => m
  if errorsAsWrapped err then
    match err with
    | .wrapped jPfx _ _ jErr =>
        if jPfx ≠ "" then
          if ew.pfx = "" then
            .wrapped jPfx tmpMsg 0 jErr
          else
            .wrapped (ew.pfx ++ sepStr ew.errJoiner ++ jPfx) tmpMsg 0 jErr
        else
          .wrapped ew.pfx tmpMsg 0 err
    | _ => .wrapped ew.pfx tmpMsg 0 err
  else
    .wrapped ew.pfx tmpMsg 0 err

/-- `func (ew errWrapper) NewErrorString(errStr string, msg ...string) error`
of part_000: no empty-string check; always wraps `&errorString{errStr}`. -/
def NewErrorString (ew : EW) (errStr : String) (msg : List String) : Err :=
  .wrapped ew.pfx
    (match msg with
     | [] => ""
     | m :: _ => m)
    0 (.raw errStr)

end P0

namespace V1

/-- `func (ew errWrapper) NewError(msg string, err error) error` of v1: the
same body as part_000's `NewError` but with a mandatory single `msg`
argument placed first. -/
def NewError (ew : EW) (msg : String) (err : Err) : Err :=
  if errorsAsWrapped err then
    match err with
    | .wrapped jPfx _ _ jErr =>
        if jPfx ≠ "" then
          if ew.pfx = "" then
            .wrapped jPfx msg 0 jErr
          else
            .wrapped (ew.pfx ++ sepStr ew.errJoiner ++ jPfx) msg 0 jErr
        else
          .wrapped ew.pfx msg 0 err
    | _ => .wrapped ew.pfx msg 0 err
  else
    .wrapped ew.pfx msg 0 err

/-- `func (ew errWrapper) NewErrorString(msg, errString string) error` of v1:
no empty-string check; always wraps `&errorString{errString}`. -/
def NewErrorString (ew : EW) (msg : String) (errString : String) : Err :=
  .wrapped ew.pfx msg 0 (.raw errString)

end V1

/-! Specification-side definitions, written from the words of spec.md, to be
compared with the definitions above (refinement direction of the claims). -/

/-- The list of prefixes of the nested wrapper nodes of a chain, outer to
inner, stopping at the first non-wrapper (or nil) value. -/
def chainPfxList : Err → List String
  | .wrapped p _ _ inner => p :: chainPfxList inner
  | _ => []

/-- The terminal of a chain: the first non-wrapper (or nil) value reached by
unwrapping through the nested wrapper nodes. -/
def chainTerminal : Err → Err
  | .wrapped _ _ _ inner => chainTerminal inner
  | e => e

/-- Joining a list of prefixes with a single joiner byte, per the spec's
merge rule: concatenated in order, empty prefixes skipped, and the joiner
omitted when either side of a join is empty. -/
def joinNE (j : Nat) : List String → String
  | [] => ""
  | p :: rest =>
      let r := joinNE j rest
      if p = "" then r
      else if r = "" then p
      else p ++ sepStr j ++ r

/-- The rendering algorithm as the spec states it (§4.2 steps 1–4): prefix
followed by the fixed separator ": " when non-empty, then "[message]" when
the message is non-empty, then — when an inner error is present — a single
space if a message was emitted followed by the inner error's own rendered
string, concatenated in order with nothing for absent sections. -/
def renderSpec : Err → String
  | .nil => ""
  | .raw s => s
  | .wrapped p m _ inner =>
      (if p ≠ "" then p ++ ": " else "")
      ++ (if m ≠ "" then "[" ++ m ++ "]" else "")
      ++ (match inner with
          | .nil => ""
          | i => (if m ≠ "" then " " else "") ++ renderSpec i)

/-- The depth of a chain: the number of nested wrapper nodes above the
terminal. -/
def chainDepth : Err → Nat
  | .wrapped _ _ _ inner => chainDepth inner + 1
  | _ => 0

/-- `n` successive applications of `unwrap`, modelling a consumer walking the
chain with `errors.Unwrap`. -/
def unwrapIter : Nat → Err → Err
  | 0, e => e
  | n + 1, e => unwrapIter n e.unwrap

/-- A value at which repeated unwrapping has terminated: nil or a raw leaf,
i.e. anything but a wrapper node. -/
def isTerminal : Err → Prop
  | .wrapped .. => False
  | _ => True

/-- Replace the joiner byte stored in every wrapper node of a chain by `k`,
leaving every other field alone.  Used to state that flattening never reads
the stored joiners. -/
def setJoiners (k : Nat) : Err → Err
  | .nil => .nil
  | .raw s => .raw s
  | .wrapped p m _ inner => .wrapped p m k (setJoiners k inner)

/-- The error values producible through part_001's public operations:
`NewErrorString` on a non-empty string, `NewError` on a non-wrapper (raw /
foreign) error, and `NewError` re-wrapping a previously produced value. -/
inductive Producible : Err → Prop where
  | ofString (f : EW) (s : String) (msg : List String) :
      s ≠ "" → Producible (P1.NewErrorString f s msg)
  | ofRaw (f : EW) (s : String) (msg : List String) :
      Producible (P1.NewError f (.raw s) msg)
  | ofWrap (f : EW) (e0 : Err) (msg : List String) :
      Producible e0 → Producible (P1.NewError f e0 msg)

end ErrorWrapper

namespace ErrorWrapper

/-- The joiner byte stored in a wrapper node (zero for non-wrapper values,
matching the Go zero value). -/
def joinerField : Err → Nat
  | .wrapped _ _ j _ => j
  | _ => 0

/-! Bridge lemmas between the code-side and the spec-side definitions. -/

/-- `joinNE` on a cons matches the shape of the accumulation step performed
by `unwrapRecursively` and `NewError`. -/
theorem joinNE_cons (j : Nat) (p : String) (l : List String) :
    joinNE j (p :: l) =
      p ++ (if p ≠ "" ∧ joinNE j l ≠ "" then sepStr j else "") ++ joinNE j l := by
  by_cases hp : p = "" <;> by_cases hr : joinNE j l = "" <;>
    simp [joinNE, hp, hr, String.append_assoc]

/-- `unwrapRecursively` returns exactly the spec-side merged prefix (all
nested prefixes outer-to-inner, joined by the single passed joiner, empties
skipped) together with the chain's terminal. -/
theorem unwrapRecursively_spec (e : Err) (j : Nat) :
    P1.unwrapRecursively e j = (joinNE j (chainPfxList e), chainTerminal e) := by
  induction e with
  | nil => rfl
  | raw s => rfl
  | wrapped p m jj inner ih =>
      simp only [P1.unwrapRecursively, chainPfxList, chainTerminal, ih, joinNE_cons]

end ErrorWrapper

namespace ErrorWrapper

/-- C1: for every factory and every non-nil error, part_001's `NewError`
returns a single wrapper whose prefix is the factory's prefix followed by
all prefixes found by unwrapping through the nested wrapper chain in
outer-to-inner order, joined by the outer factory's joiner with empty
prefixes skipped and the joiner omitted when either side of a join is
empty; whose inner is the terminal (first non-wrapper, possibly nil) of the
chain; and whose message is exactly this call's message argument.  In the
two-factory case the prefix is p1 ++ joiner ++ p2 when both are non-empty,
p1 when p2 is empty, p2 when p1 is empty (hence empty when both are). -/
theorem newError_flattens_chain :
    (∀ (ew : EW) (e : Err) (msg : List String), e ≠ .nil →
       P1.NewError ew e msg =
         .wrapped (joinNE ew.errJoiner (ew.pfx :: chainPfxList e))
           (match msg with | [] => "" | m :: _ => m)
           ew.errJoiner (chainTerminal e)) ∧
    (∀ (jb jb2 : Nat) (p1 p2 m m2 s : String),
       P1.NewError ⟨.nil, "", p1, jb⟩ (.wrapped p2 m jb2 (.raw s)) [m2] =
         .wrapped (if p1 ≠ "" ∧ p2 ≠ "" then p1 ++ sepStr jb ++ p2
                   else if p2 = "" then p1 else p2)
           m2 jb (.raw s)) := by
  constructor
  · intro ew e msg he
    match e, he with
    | .raw s, _ =>
        simp only [P1.NewError, unwrapRecursively_spec, joinNE_cons]
    | .wrapped p m jj inner, _ =>
        simp only [P1.NewError, unwrapRecursively_spec, joinNE_cons]
  · intro jb jb2 p1 p2 m m2 s
    have h := unwrapRecursively_spec (.wrapped p2 m jb2 (.raw s)) jb
    simp only [P1.NewError, h, chainPfxList, chainTerminal, joinNE]
    by_cases h1 : p1 = "" <;> by_cases h2 : p2 = "" <;>
      simp [h1, h2, String.append_assoc]

/-- C1 witness: the flattening law applied at a concrete factory, error and
message. -/
theorem newError_flattens_chain_witness :
    P1.NewError ⟨.nil, "", "api", 46⟩ (.wrapped "svc" "io" 0 (.raw "disk full")) ["retry"] =
      .wrapped (joinNE 46 ["api", "svc"]) "retry" 46 (chainTerminal (.wrapped "svc" "io" 0 (.raw "disk full"))) :=
  newError_flattens_chain.1 ⟨.nil, "", "api", 46⟩ (.wrapped "svc" "io" 0 (.raw "disk full"))
    ["retry"] (by decide)

end ErrorWrapper

namespace ErrorWrapper

/-- C2: the `Error()` rendering of a wrapper is exactly the spec's four-step
algorithm (prefix with fixed separator ": " when non-empty, then "[message]"
when the message is non-empty, then a single space if a message was emitted
followed by the inner error's own rendered string when an inner error is
present, nothing for absent sections), and concretely
`create('.', "svc").wrapString("disk full", "io")` renders to
"svc: [io] disk full". -/
theorem render_follows_spec :
    (∀ e : Err, Err.render e = renderSpec e) ∧
    (P1.NewErrorString (New 46 ["svc"]) "disk full" ["io"]).render = "svc: [io] disk full" := by
  constructor
  · intro e
    induction e with
    | nil => rfl
    | raw s => rfl
    | wrapped p m j inner ih =>
        cases inner with
        | nil => rfl
        | raw s => rfl
        | wrapped a b c d =>
            exact congrArg (fun z =>
              (if p ≠ "" then p ++ defaultMsgJoiner else "")
              ++ (if m ≠ "" then "[" ++ m ++ "]" else "")
              ++ ((if m ≠ "" then " " else "") ++ z)) ih
  · decide

/-- C3 counterexample: with `f = create('.', "svc")`,
`e1 = f.wrapString("disk full", "io")`, `g = create('.', "api")` and
`e2 = g.wrapError(e1, "retry")`, the code renders `e2` as
"api.svc: [retry] disk full" (outer prefix first), which differs from the
claimed "svc.api: [retry] disk full". -/
theorem render_two_factory_counterexample :
    (P1.NewError (New 46 ["api"])
       (P1.NewErrorString (New 46 ["svc"]) "disk full" ["io"]) ["retry"]).render =
      "api.svc: [retry] disk full" ∧
    ("api.svc: [retry] disk full" : String) ≠ "svc.api: [retry] disk full" := by
  constructor
  · decide
  · decide

/-- C3 amended: in that scenario `e2.render()` equals
"api.svc: [retry] disk full" — the outer factory's prefix comes first per
the outer-to-inner merge rule — and the inner "[io]" annotation is dropped,
only the terminal RawError's text "disk full" being retained (the collapsed
node is exactly `wrapped "api.svc" "retry" '.' (raw "disk full")`). -/
theorem render_two_factory_scenario :
    P1.NewError (New 46 ["api"])
        (P1.NewErrorString (New 46 ["svc"]) "disk full" ["io"]) ["retry"] =
      .wrapped "api.svc" "retry" 46 (.raw "disk full") ∧
    (P1.NewError (New 46 ["api"])
       (P1.NewErrorString (New 46 ["svc"]) "disk full" ["io"]) ["retry"]).render =
      "api.svc: [retry] disk full" := by
  constructor
  · decide
  · decide

/-- C4: part_001's `NewError` maps a nil error to nil and its
`NewErrorString` maps the empty string to nil, for every factory and every
optional message. -/
theorem wrap_nil_empty_yields_nil :
    (∀ (ew : EW) (msg : List String), P1.NewError ew .nil msg = .nil) ∧
    (∀ (ew : EW) (msg : List String), P1.NewErrorString ew "" msg = .nil) := by
  constructor
  · intro ew msg; rfl
  · intro ew msg; simp [P1.NewErrorString]

end ErrorWrapper

namespace ErrorWrapper

/-- C5 counterexample: a chain whose nodes store different joiner bytes —
the node with prefix "a" stores '-' (45), the node with prefix "b" stores
'#' (35) — flattened by a factory with joiner '.' (46) gives prefix
"p.a.b": every join uses the factory's joiner, whereas joining the "a"
segment to the next one with that node's own joiner would give "p.a-b". -/
theorem flatten_node_joiners_counterexample :
    P1.NewError ⟨.nil, "", "p", 46⟩
        (.wrapped "a" "" 45 (.wrapped "b" "" 35 (.raw "x"))) [] =
      .wrapped "p.a.b" "" 46 (.raw "x") ∧
    ("p.a.b" : String) ≠ "p.a-b" := by
  constructor
  · decide
  · decide

/-- C5 amended: when `NewError` flattens a chain of nested wrappers, every
join uses the single joiner of the factory performing the wrap; the joiner
bytes stored in the nested nodes are never read, so replacing all of them
changes nothing about the result. -/
theorem flatten_ignores_node_joiners (f : EW) (k : Nat) (e : Err) (msg : List String) :
    P1.NewError f (setJoiners k e) msg = P1.NewError f e msg := by
  have key : ∀ (e0 : Err) (j : Nat),
      P1.unwrapRecursively (setJoiners k e0) j = P1.unwrapRecursively e0 j := by
    intro e0 j
    induction e0 with
    | nil => rfl
    | raw s => rfl
    | wrapped p m jj inner ih =>
        simp only [setJoiners, P1.unwrapRecursively, ih]
  cases e with
  | nil => rfl
  | raw s => rfl
  | wrapped p m jj inner =>
      simp only [setJoiners, P1.NewError, P1.unwrapRecursively, key]

/-- C6 counterexample: the factory `create('.', "svc")` has joiner 46 ('.'),
but the wrapper produced by its `wrapString` carries joiner 0 (the Go
struct literal in `NewErrorString` omits the `errJoiner` field), so a
produced wrapper does not always carry the factory's joiner and can be the
zero byte. -/
theorem wrapString_joiner_counterexample :
    (New 46 ["svc"]).errJoiner = 46 ∧
    joinerField (P1.NewErrorString (New 46 ["svc"]) "x" []) = 0 ∧
    (0 : Nat) ≠ 46 := by
  refine ⟨rfl, rfl, by decide⟩

/-- C6 amended: a factory created with the zero-value joiner byte gets the
default joiner '.' (0x2E) and an omitted prefix becomes the empty string;
a wrapper produced by `NewError` on a non-nil error carries the factory's
joiner, but a wrapper produced by `NewErrorString` carries the zero byte
(its struct literal leaves `errJoiner` unset). -/
theorem factory_and_produced_joiners :
    ((∀ l, (New 0 l).errJoiner = defaultErrJoiner) ∧ (New 0 []).pfx = "") ∧
    (∀ (f : EW) (e : Err) (msg : List String), e ≠ .nil →
       joinerField (P1.NewError f e msg) = f.errJoiner) ∧
    (∀ (f : EW) (s : String) (msg : List String), s ≠ "" →
       joinerField (P1.NewErrorString f s msg) = 0) := by
  refine ⟨⟨fun l => rfl, rfl⟩, ?_, ?_⟩
  · intro f e msg he
    match e, he with
    | .raw s, _ => rfl
    | .wrapped p m jj inner, _ => rfl
  · intro f s msg hs
    simp [P1.NewErrorString, hs, joinerField]

/-- C6 witness: the amended joiner law applied at concrete inputs. -/
theorem factory_and_produced_joiners_witness :
    joinerField (P1.NewError ⟨.nil, "", "a", 46⟩ (.raw "x") []) = (46 : Nat) ∧
    joinerField (P1.NewErrorString ⟨.nil, "", "a", 46⟩ "x" []) = 0 :=
  ⟨factory_and_produced_joiners.2.1 ⟨.nil, "", "a", 46⟩ (.raw "x") [] (by decide),
   factory_and_produced_joiners.2.2 ⟨.nil, "", "a", 46⟩ "x" [] (by decide)⟩

end ErrorWrapper

namespace ErrorWrapper

/-- C7: `Unwrap` on a wrapper returns exactly its inner field (one level
only), and iterating `unwrap` from any error value reaches a terminal (a
raw leaf or nil, never a wrapper) in at most the chain's depth many steps.
Error values are an inductive type here, so a cycle among produced values
is unrepresentable and every chain is finite. -/
theorem unwrap_one_level_and_terminates :
    (∀ (p m : String) (j : Nat) (inner : Err),
       Err.unwrap (.wrapped p m j inner) = inner) ∧
    (∀ e : Err, isTerminal (unwrapIter (chainDepth e) e)) := by
  constructor
  · intro p m j inner; rfl
  · intro e
    induction e with
    | nil => trivial
    | raw s => trivial
    | wrapped p m j inner ih =>
        simpa [chainDepth, unwrapIter, Err.unwrap] using ih

/-- C8: empty prefixes are transparent in merging.  Concretely, for
`h = create('.', "")` and `e1 = create('.', "svc").wrapString("disk full",
"io")`, `h.wrapError(e1)` keeps prefix "svc".  Generally, a wrapper node
with an empty prefix contributes nothing to `unwrapRecursively` — the merge
continues past it to the rest of the chain — and a factory with an empty
prefix returns the flattened inner prefix unchanged. -/
theorem empty_prefixes_transparent :
    (P1.NewError (New 46 [""]) (P1.NewErrorString (New 46 ["svc"]) "disk full" ["io"]) [] =
       .wrapped "svc" "" 46 (.raw "disk full")) ∧
    (∀ (m : String) (j0 jo : Nat) (inner : Err),
       P1.unwrapRecursively (.wrapped "" m j0 inner) jo = P1.unwrapRecursively inner jo) ∧
    (∀ (f : EW) (e : Err) (msg : List String), f.pfx = "" → e ≠ .nil →
       P1.NewError f e msg =
         .wrapped (P1.unwrapRecursively e f.errJoiner).1
           (match msg with | [] => "" | m :: _ => m)
           f.errJoiner (P1.unwrapRecursively e f.errJoiner).2) := by
  refine ⟨by decide, ?_, ?_⟩
  · intro m j0 jo inner
    simp [P1.unwrapRecursively]
  · intro f e msg hpfx he
    match e, he with
    | .raw s, _ => simp [P1.NewError, hpfx]
    | .wrapped p m jj inner, _ => simp [P1.NewError, hpfx]

/-- C8 witness: the transparency laws applied at concrete inputs. -/
theorem empty_prefixes_transparent_witness :
    P1.NewError ⟨.nil, "", "", 46⟩ (.wrapped "svc" "io" 0 (.raw "disk full")) [] =
      .wrapped (P1.unwrapRecursively (.wrapped "svc" "io" 0 (.raw "disk full")) 46).1 ""
        46 (P1.unwrapRecursively (.wrapped "svc" "io" 0 (.raw "disk full")) 46).2 :=
  empty_prefixes_transparent.2.2 ⟨.nil, "", "", 46⟩
    (.wrapped "svc" "io" 0 (.raw "disk full")) [] rfl (by decide)

/-- C9: every error value producible through part_001's public operations —
`NewErrorString` on a non-empty string, `NewError` on a raw/foreign error,
and arbitrary re-wrapping of previous results — is a wrapper whose inner
field is a raw leaf (in particular non-nil and not itself a wrapper): the
produced chain always has depth exactly one above its terminal. -/
theorem producible_depth_one (e : Err) (h : Producible e) :
    ∃ p m j s, e = .wrapped p m j (.raw s) := by
  induction h with
  | ofString f s msg hs =>
      refine ⟨f.pfx, match msg with | [] => "" | m :: _ => m, 0, s, ?_⟩
      simp [P1.NewErrorString, hs]
  | ofRaw f s msg =>
      exact ⟨_, _, _, s, rfl⟩
  | ofWrap f e0 msg _ ih =>
      obtain ⟨p, m, j, s, rfl⟩ := ih
      exact ⟨_, _, _, s, rfl⟩

/-- C9 witness: the depth-one invariant applied to a concretely produced
value. -/
theorem producible_depth_one_witness :
    ∃ p m j s,
      P1.NewErrorString (New 0 ["a"]) "x" [] = Err.wrapped p m j (.raw s) :=
  producible_depth_one _ (Producible.ofString (New 0 ["a"]) "x" [] (by decide))

/-- C10: on a non-nil, non-wrapper error and for factories with the same
prefix and joiner, the three variants' `NewError` operations agree on the
rendered display string (v1 takes the message first, part_000 and part_001
take it as a trailing variadic argument). -/
theorem variants_agree_on_raw (f : EW) (s m : String) :
    (V1.NewError f m (.raw s)).render = (P0.NewError f (.raw s) [m]).render ∧
    (P0.NewError f (.raw s) [m]).render = (P1.NewError f (.raw s) [m]).render := by
  constructor
  · rfl
  · simp [P0.NewError, P1.NewError, P1.unwrapRecursively, errorsAsWrapped, Err.render]

end ErrorWrapper
